import Mathlib

/-!
Verification of the PADMA diabetic-foot-ulcer front end (`PADMA.py`).

The development shallowly embeds the program: Python values become Lean
values, the widget state read at submission time becomes a `FormState`
record, the single outbound HTTP interaction becomes an `HttpOutcome`
parameter, and every Streamlit display call becomes an entry in a list of
displayed strings.  Calls into external libraries (PIL, OpenCV, `requests`,
`base64`, the PNG codec, IEEE-754 formatting) are modelled by executable
Lean functions that are faithful to the documented behaviour of those
libraries at the granularity the program relies on; each such model carries
a doc comment saying what it models.
-/

namespace PADMA

/-! ## JSON values (the parsed bodies produced by `response.json()`) -/

/-- A parsed JSON value, as produced by Python's `json` machinery.
Numbers carry the exact rational value of the numeric literal on the wire;
the conversion to an IEEE-754 double happens in `doubleOfRat` below,
exactly where the program observes the number. -/
inductive JVal : Type
  | str (s : String)
  | num (q : ℚ)
  | bool (b : Bool)
  | null
  | arr (elems : List JVal)
  | obj (fields : List (String × JVal))
  deriving Repr

/-- A JSON object body: ordered key/value pairs (Python dicts have unique
keys; lookup returns the first match). -/
abbrev JObj : Type := List (String × JVal)

/-- `k in d` for a Python dict. -/
def hasKey (o : JObj) (k : String) : Bool :=
  o.any (fun p => p.1 == k)

/-- `d[k]` for a Python dict (first binding of the key). -/
def lookupJ (o : JObj) (k : String) : Option JVal :=
  (o.find? (fun p => p.1 == k)).map (·.2)

/-! ## IEEE-754 binary64 and Python's `:.2f` formatting

The program displays probabilities with `f"{float(prob):.2f}"`.  The JSON
parser has already turned the numeric literal into the nearest binary64
double, `float` is the identity on it, and `:.2f` prints the correctly
rounded two-decimal form of the exact binary value, ties to even.  We model
the double as the exact rational it denotes. -/

/-- Round the fraction `a / b` (with `b > 0`) to the nearest integer,
ties to even — the rounding used both by binary64 conversion and by
Python's fixed-point formatting. -/
def roundHalfEvenInt (a b : ℤ) : ℤ :=
  let q := a.ediv b
  let r := a.emod b
  if 2 * r < b then q
  else if b < 2 * r then q + 1
  else if q.emod 2 = 0 then q else q + 1

/-- The binade exponent of the positive fraction `a / b`: the largest `e`
with `2 ^ e ≤ a / b`, searched over `[-300, 300]`, which covers every
magnitude this program can format. -/
def dExpI (a b : ℤ) : ℤ :=
  -301 + (((List.range 601).filter (fun i =>
    if 300 ≤ i then decide (b * ((2 ^ (i - 300) : ℕ) : ℤ) ≤ a)
    else decide (b ≤ a * ((2 ^ (300 - i) : ℕ) : ℤ)))).length : ℤ)

/-- Models conversion of an exact JSON numeric literal to its IEEE-754
binary64 value (what Python's `json` parsing followed by `float` yields):
the significand rounded to 53 bits, ties to even, returned as a pair
`(m, e)` denoting `m · 2 ^ e`.  Overflow and subnormals cannot arise for
the magnitudes the program handles and are out of scope. -/
def doubleOfRat (q : ℚ) : ℤ × ℤ :=
  if q.num = 0 then (0, 0)
  else
    let a : ℤ := q.num.natAbs
    let b : ℤ := q.den
    let e := dExpI a b
    let m :=
      if 0 ≤ 52 - e then roundHalfEvenInt (a * ((2 ^ (52 - e).toNat : ℕ) : ℤ)) b
      else roundHalfEvenInt a (b * ((2 ^ (e - 52).toNat : ℕ) : ℤ))
    (if q.num < 0 then -m else m, e - 52)

/-- Two-decimal digits with a leading zero, e.g. `7 ↦ "07"`. -/
def twoDigits (n : ℤ) : String :=
  if n.natAbs < 10 then "0" ++ toString n.natAbs else toString n.natAbs

/-- Models Python's `f"{x:.2f}"` on the double `m · 2 ^ e`: correctly
rounded to two decimals, ties to even.  (Negative values format with a
Python-style sign only through `ediv`/`emod` conventions; every value the
program formats is a non-negative percentage.) -/
def fmtF2 (m e : ℤ) : String :=
  let n : ℤ :=
    if 0 ≤ e then 100 * m * ((2 ^ e.toNat : ℕ) : ℤ)
    else roundHalfEvenInt (100 * m) ((2 ^ (-e).toNat : ℕ) : ℤ)
  toString (n.ediv 100) ++ "." ++ twoDigits (n.emod 100)

/-- `f"{float(prob):.2f}"` applied to a parsed JSON value: the numeric
literal's binary64 value formatted to two decimals.  (`float` of a
non-numeric value raises in Python; no backend shape in the interface
contract sends one, and the model renders an empty numeral there.) -/
def pyFmtFloat2 (v : JVal) : String :=
  match v with
  | .num q => fmtF2 (doubleOfRat q).1 (doubleOfRat q).2
  | _ => ""

/-- The text an f-string interpolation produces for a parsed JSON value;
for the string labels the backend sends this is the string's content. -/
def jvalText (v : JVal) : String :=
  match v with
  | .str s => s
  | .num q => toString q
  | .bool b => if b then "True" else "False"
  | .null => "None"
  | .arr _ => "<list>"
  | .obj _ => "<dict>"

/-! ## Result renderer (`PADMA.py` lines 155-169)

`main` renders `predictions` with
```
if predictions:
    if "probabilities" in predictions and "labels" in predictions: ...
    elif "error" in predictions: ...
    else: st.error("Unexpected response from backend.")
```
We model each display call by the visible text it puts on screen (for the
per-pair markdown `<div>…<b>label</b>: p%</div>` that text is
`label: p%`). Note the outer guard is Python truthiness: it skips both
`None` (the failure value of `predict_image`) and the empty dict `{}`. -/

/-- The visible text of one result line
(`f"<b>{label}</b>: {float(prob):.2f}%"`). -/
def renderPairText (label prob : JVal) : String :=
  jvalText label ++ ": " ++ pyFmtFloat2 prob ++ "%"

/-- The result-rendering block of `main` (lines 155-169): the list of
texts displayed for a `predict_image` result.  Keys present with non-array
values would raise in Python at the `zip`; no backend shape in the
interface contract does that, and the model then shows only the headers. -/
def renderPredictions (predictions : Option JObj) : List String :=
  match predictions with
  | none => []
  | some o =>
    if o.isEmpty then []
    else if hasKey o "probabilities" && hasKey o "labels" then
      ["Analysis Complete!", "Results:"] ++
        (match lookupJ o "labels", lookupJ o "probabilities" with
         | some (.arr ls), some (.arr ps) =>
             (ls.zip ps).map (fun lp => renderPairText lp.1 lp.2)
         | _, _ => [])
    else if hasKey o "error" then
      ["Backend Error: " ++ jvalText ((lookupJ o "error").getD .null)]
    else
      ["Unexpected response from backend."]

/-! ## Images and the preprocessing pipeline (`process_image`, lines 68-77)

An uploaded image is modelled as a rectangle of RGBA pixels (PIL decodes
JPEG/PNG uploads into some mode; `convert("RGB")` then drops alpha or
palette).  In-pipeline images are rectangles of RGB triples and planes are
rectangles of single channel values.  Channel values are bytes; the models
reduce mod 256 wherever the libraries store into `uint8`. -/

/-- A decoded uploaded image (arbitrary mode, here RGBA per pixel). -/
structure PImage where
  width : Nat
  height : Nat
  pix : Nat → Nat → Nat × Nat × Nat × Nat

/-- An RGB image (PIL `"RGB"` mode / a 3-channel numpy array). -/
structure Image where
  width : Nat
  height : Nat
  pix : Nat → Nat → Nat × Nat × Nat

/-- A single-channel plane (one output of `cv2.split`). -/
structure Plane where
  width : Nat
  height : Nat
  pix : Nat → Nat → Nat

/-- Models PIL `image.convert("RGB")`: keeps the colour channels, drops
alpha/palette. -/
def convertRGB (img : PImage) : Image :=
  { width := img.width, height := img.height
    pix := fun x y => ((img.pix x y).1, (img.pix x y).2.1, (img.pix x y).2.2.1) }

/-- Models PIL `image.resize((w, h))`: a direct stretch to exactly `w × h`
by deterministic source sampling (the precise resampling kernel of the
library does not matter to any claim; dimensions and determinism do). -/
def resize (w h : Nat) (img : Image) : Image :=
  { width := w, height := h
    pix := fun x y => img.pix (x * img.width / w) (y * img.height / h) }

/-- Models `cv2.cvtColor(·, cv2.COLOR_RGB2BGR)`: swap channels 0 and 2. -/
def cvtColorRGB2BGR (img : Image) : Image :=
  { width := img.width, height := img.height
    pix := fun x y => ((img.pix x y).2.2, (img.pix x y).2.1, (img.pix x y).1) }

/-- Models `cv2.cvtColor(·, cv2.COLOR_BGR2RGB)`: swap channels 0 and 2. -/
def cvtColorBGR2RGB (img : Image) : Image :=
  { width := img.width, height := img.height
    pix := fun x y => ((img.pix x y).2.2, (img.pix x y).2.1, (img.pix x y).1) }

/-- Models `cv2.split`: the three single-channel planes of an image. -/
def split3 (img : Image) : Plane × Plane × Plane :=
  ( { width := img.width, height := img.height, pix := fun x y => (img.pix x y).1 }
  , { width := img.width, height := img.height, pix := fun x y => (img.pix x y).2.1 }
  , { width := img.width, height := img.height, pix := fun x y => (img.pix x y).2.2 } )

/-- Models `cv2.merge((a, b, c))`: recombine three planes into one image. -/
def merge3 (a b c : Plane) : Image :=
  { width := a.width, height := a.height
    pix := fun x y => (a.pix x y, b.pix x y, c.pix x y) }

/-- The parameters of `cv2.createCLAHE(clipLimit=2.0, tileGridSize=(8, 8))`. -/
structure ClaheParams where
  clipLimit : ℚ
  tileGrid : Nat × Nat

/-- `cv2.createCLAHE(clipLimit=2.0, tileGridSize=(8, 8))`. -/
def createCLAHE (clip : ℚ) (grid : Nat × Nat) : ClaheParams :=
  { clipLimit := clip, tileGrid := grid }

/-- Histogram of one tile of a plane: `tileHist p x0 y0 tw th v` counts the
tile's pixels with byte value `v`. -/
def tileHist (p : Plane) (x0 y0 tw th v : Nat) : Nat :=
  ((List.range th).map (fun j =>
    ((List.range tw).filter (fun i => p.pix (x0 + i) (y0 + j) % 256 = v)).length)).sum

/-- Models `clahe.apply` (OpenCV contrast-limited adaptive histogram
equalization) on one plane: the plane is cut into `gw × gh` tiles, each
tile's 256-bin histogram is clipped at `clipLimit · tileArea / 256` (at
least 1) with the excess redistributed uniformly, and each pixel is mapped
through its tile's clipped cumulative distribution scaled to `0..255`.
(OpenCV additionally blends the lookup tables of neighbouring tiles
bilinearly; the model applies each tile's own table, which preserves
everything the claims use: dimensions, byte range and determinism.) -/
def claheApply (c : ClaheParams) (p : Plane) : Plane :=
  let gw := max 1 c.tileGrid.1
  let gh := max 1 c.tileGrid.2
  let tw := max 1 (p.width / gw)
  let th := max 1 (p.height / gh)
  let area := tw * th
  let climit := max 1 (Int.toNat ⌊c.clipLimit * (area : ℚ) / 256⌋)
  { width := p.width, height := p.height
    pix := fun x y =>
      let tx := min (x / tw) (gw - 1)
      let ty := min (y / th) (gh - 1)
      let x0 := tx * tw
      let y0 := ty * th
      let hist := fun v => tileHist p x0 y0 tw th v
      let excess := ((List.range 256).map (fun v => hist v - climit)).sum
      let clipped := fun v => min (hist v) climit + excess / 256
      let cdf := fun v => ((List.range (v + 1)).map clipped).sum
      min 255 (cdf (p.pix x y % 256) * 255 / area) }

/-- `process_image` (`PADMA.py` lines 68-77), line by line:
```
image = image.convert("RGB").resize((224, 224))
img_np = np.array(image)
img_np = cv2.cvtColor(img_np, cv2.COLOR_RGB2BGR)
b, g, r = cv2.split(img_np)
clahe = cv2.createCLAHE(clipLimit=2.0, tileGridSize=(8, 8))
b, g, r = clahe.apply(b), clahe.apply(g), clahe.apply(r)
processed_img = cv2.merge((b, g, r))
processed_img = cv2.cvtColor(processed_img, cv2.COLOR_BGR2RGB)
return image, Image.fromarray(processed_img)
``` -/
def process_image (image : PImage) : Image × Image :=
  let image2 := resize 224 224 (convertRGB image)
  let img_np := cvtColorRGB2BGR image2
  let bgr := split3 img_np
  let clahe := createCLAHE 2 (8, 8)
  let b := claheApply clahe bgr.1
  let g := claheApply clahe bgr.2.1
  let r := claheApply clahe bgr.2.2
  let processed_img := merge3 b g r
  (image2, cvtColorBGR2RGB processed_img)

/-! ## PNG encoding (`image.save(buffer, format="PNG")`) and decoding

Models the imaging library's PNG codec at the granularity the program
relies on: the eight-byte PNG signature, the image width, height, bit
depth and colour type from the header, and the pixel payload.  Compression
is lossless and irrelevant to the properties in play (signature, recovered
dimensions, channel count), so the payload is stored raw. -/

/-- The eight-byte PNG file signature. -/
def pngSignature : List Nat := [137, 80, 78, 71, 13, 10, 26, 10]

/-- Big-endian four-byte encoding of a 32-bit value. -/
def be32 (n : Nat) : List Nat :=
  [n / 2 ^ 24 % 256, n / 2 ^ 16 % 256, n / 2 ^ 8 % 256, n % 256]

/-- Big-endian read of four bytes. -/
def be32parse (bs : List Nat) : Nat :=
  match bs with
  | [a, b, c, d] => a * 2 ^ 24 + b * 2 ^ 16 + c * 2 ^ 8 + d
  | _ => 0

/-- The raw RGB payload of an image, row-major, three bytes per pixel
(channel values stored as the bytes they are, i.e. reduced mod 256). -/
def pixelBytes (img : Image) : List Nat :=
  (List.range img.height).flatMap (fun y =>
    (List.range img.width).flatMap (fun x =>
      [(img.pix x y).1 % 256, (img.pix x y).2.1 % 256, (img.pix x y).2.2 % 256]))

/-- Models the library PNG encoder for an RGB image: signature, width,
height, bit depth 8, colour type 2 (truecolour), then the pixel payload. -/
def pngEncode (img : Image) : List Nat :=
  pngSignature ++ be32 img.width ++ be32 img.height ++ [8, 2] ++ pixelBytes img

/-- The channel count a PNG colour type denotes (0 for invalid types). -/
def pngColorChannels (colorType : Nat) : Nat :=
  match colorType with
  | 0 => 1
  | 2 => 3
  | 3 => 1
  | 4 => 2
  | 6 => 4
  | _ => 0

/-- A decoded PNG: dimensions, channel count and raw payload. -/
structure RawImage where
  width : Nat
  height : Nat
  channels : Nat
  data : List Nat
  deriving Repr

/-- Models the library PNG decoder: checks the signature, reads width,
height, bit depth and colour type, and requires the payload length to
match. -/
def pngDecode (bytes : List Nat) : Option RawImage :=
  if bytes.take 8 = pngSignature then
    let r1 := bytes.drop 8
    let w := be32parse (r1.take 4)
    let r2 := r1.drop 4
    let h := be32parse (r2.take 4)
    match r2.drop 4 with
    | depth :: color :: data =>
      if depth = 8 ∧ pngColorChannels color ≠ 0 ∧
          data.length = w * h * pngColorChannels color then
        some { width := w, height := h, channels := pngColorChannels color, data := data }
      else none
    | _ => none
  else none

/-! ## Base64 (`base64.b64encode(...).decode("utf-8")`)

Models the standard base64 alphabet with `=` padding, exactly as Python's
`base64.b64encode` produces it and as the receiving end decodes it. -/

/-- The standard base64 alphabet. -/
def b64Alphabet : List Char :=
  "ABCDEFGHIJKLMNOPQRSTUVWXYZabcdefghijklmnopqrstuvwxyz0123456789+/".toList

/-- The alphabet character of a sextet. -/
def sextetChar (n : Nat) : Char := b64Alphabet.getD n 'A'

/-- The sextet of an alphabet character (`none` for non-alphabet input). -/
def charSextet (c : Char) : Option Nat :=
  let i := b64Alphabet.indexOf c
  if i < 64 then some i else none

/-- The four characters encoding one full three-byte group. -/
def b64chunk (a b c : Nat) : List Char :=
  [ sextetChar (a / 4)
  , sextetChar (a % 4 * 16 + b / 16)
  , sextetChar (b % 16 * 4 + c / 64)
  , sextetChar (c % 64) ]

/-- Models `base64.b64encode` on a byte list: three-byte groups become
four characters; a trailing one- or two-byte group is padded with `=`. -/
def b64encodeBytes (bs : List Nat) : List Char :=
  match bs with
  | [] => []
  | [a] => [sextetChar (a / 4), sextetChar (a % 4 * 16), '=', '=']
  | [a, b] => [sextetChar (a / 4), sextetChar (a % 4 * 16 + b / 16), sextetChar (b % 16 * 4), '=']
  | a :: b :: c :: rest => b64chunk a b c ++ b64encodeBytes rest

/-- `base64.b64encode(bytes).decode("utf-8")`: the base64 text as a
string. -/
def b64encodeString (bs : List Nat) : String :=
  String.mk (b64encodeBytes bs)

/-- Standard base64 decoding of a character list: four-character groups,
with `=` padding allowed only in the final group; `none` on malformed
input. -/
def b64decodeChars (cs : List Char) : Option (List Nat) :=
  match cs with
  | [] => some []
  | c1 :: c2 :: c3 :: c4 :: rest =>
    if c3 = '=' then
      match charSextet c1, charSextet c2, rest with
      | some s1, some s2, [] => if c4 = '=' then some [s1 * 4 + s2 / 16] else none
      | _, _, _ => none
    else if c4 = '=' then
      match charSextet c1, charSextet c2, charSextet c3, rest with
      | some s1, some s2, some s3, [] =>
        some [s1 * 4 + s2 / 16, s2 % 16 * 16 + s3 / 4]
      | _, _, _, _ => none
    else
      match charSextet c1, charSextet c2, charSextet c3, charSextet c4,
          b64decodeChars rest with
      | some s1, some s2, some s3, some s4, some tail =>
        some ([s1 * 4 + s2 / 16, s2 % 16 * 16 + s3 / 4, s3 % 4 * 64 + s4] ++ tail)
      | _, _, _, _, _ => none
  | _ => none

/-- Base64 decoding of a string. -/
def b64decodeString (s : String) : Option (List Nat) :=
  b64decodeChars s.toList

/-! ## The prediction client (`predict_image`, lines 79-89)

The single outbound interaction is modelled by an `HttpOutcome` supplied
by the environment: either the transport fails (`requests.post` raises),
or a response arrives with a status code and a body that either parses as
a JSON object or does not parse (`response.json()` raises).  The backend
interface (§6 of the spec) only ever returns JSON objects, so object
bodies suffice. -/

/-- What the network does to the one `requests.post` call. -/
inductive HttpOutcome : Type
  | transportError (msg : String)
  | response (status : Nat) (body : Option JObj)

/-- One issued HTTP POST: the target URL and the JSON body
`{"file": fileB64}`. -/
structure PostCall where
  url : String
  fileB64 : String
  deriving Repr, DecidableEq

/-- The fixed remote endpoint of the `requests.post` call. -/
def predictURL : String := "https://backendapi-ctgr.onrender.com/predict"

/-- Models `response.raise_for_status()` from the `requests` library: it
raises `HTTPError` exactly for client-error (4xx) and server-error (5xx)
status codes. -/
def raiseForStatusRaises (status : Nat) : Bool :=
  400 ≤ status && status < 600

/-- The text of the `HTTPError` that `raise_for_status` raises (the
`requests` message names the status code; only its presence matters). -/
def httpErrorText (status : Nat) : String :=
  toString status ++ " Error for url: " ++ predictURL

/-- The text of the exception `response.json()` raises on an unparseable
body. -/
def jsonErrorText : String := "Expecting value"

/-- `predict_image` (`PADMA.py` lines 79-89), line by line: encode the
image to PNG in memory, base64-encode the bytes, POST
`{"file": <base64>}` to the fixed URL, `raise_for_status`, and return the
parsed JSON on success; any exception is caught, shown as
`f"Prediction API Error: {e}"`, and `None` is returned.  The result lists
the calls issued, the texts displayed, and the returned value. -/
def predict_image (image : Image) (net : HttpOutcome) :
    List PostCall × List String × Option JObj :=
  let img_data := b64encodeString (pngEncode image)
  let call : PostCall := { url := predictURL, fileB64 := img_data }
  match net with
  | .transportError msg =>
      ([call], ["Prediction API Error: " ++ msg], none)
  | .response status body =>
      if raiseForStatusRaises status then
        ([call], ["Prediction API Error: " ++ httpErrorText status], none)
      else
        match body with
        | none => ([call], ["Prediction API Error: " ++ jsonErrorText], none)
        | some o => ([call], [], some o)

/-! ## The form and the submission handler (`main`, lines 105-169)

`FormState` is the snapshot of the widget values read when the submit
button fires.  Fields are modelled by the value domain the widgets
deliver to the code: text inputs give strings (empty when untouched), the
radios give `Yes`/`No`/`None`, the number inputs and the date and upload
widgets are modelled as options so that every falsiness/`is None` test of
the source is meaningful. -/

/-- The widget values of the form at submission time.  `dob` is the date
as an ordinal day, `uploaded_file` the decoded upload (uploads are
limited to jpg/jpeg/png, which the platform decodes). -/
structure FormState where
  full_name : String
  email : String
  dob : Option Nat
  age : Nat
  gender : String
  contact : String
  diabetes : Option String
  diabetes_years : Option Nat
  high_bp : Option String
  medications : String
  uploaded_file : Option PImage

/-- The validator of `main` (`PADMA.py` lines 135-145), one conditional
append per line:
```
missing = []
if not full_name: missing.append("Full Name")
if not email: missing.append("Email")
if not dob: missing.append("Date of Birth")
if not age: missing.append("Age")
if gender == "Select Gender": missing.append("Gender")
if not contact: missing.append("Contact Number")
if diabetes is None: missing.append("Diabetes Status")
if diabetes == "Yes" and diabetes_years is None: missing.append("Years with Diabetes")
if high_bp is None: missing.append("Blood Pressure Status")
if not uploaded_file: missing.append("Image Upload")
``` -/
def missingFields (f : FormState) : List String :=
  (if f.full_name = "" then ["Full Name"] else []) ++
  (if f.email = "" then ["Email"] else []) ++
  (if f.dob.isNone then ["Date of Birth"] else []) ++
  (if f.age = 0 then ["Age"] else []) ++
  (if f.gender = "Select Gender" then ["Gender"] else []) ++
  (if f.contact = "" then ["Contact Number"] else []) ++
  (if f.diabetes.isNone then ["Diabetes Status"] else []) ++
  (if f.diabetes = some "Yes" ∧ f.diabetes_years.isNone then ["Years with Diabetes"] else []) ++
  (if f.high_bp.isNone then ["Blood Pressure Status"] else []) ++
  (if f.uploaded_file.isNone then ["Image Upload"] else [])

/-- The outcome of one press of "Analyze & Generate Report": the texts put
on screen and the network calls issued. -/
structure SubmitOutcome where
  displays : List String
  calls : List PostCall

/-- The submit handler of `main` (`PADMA.py` lines 134-169): validate;
if anything is missing show the aggregated error and stop; otherwise open
the upload, preprocess it, show the processed image, call the prediction
client once and render its result.  (The `none` upload arm is unreachable:
an absent upload puts "Image Upload" in `missing`.) -/
def runSubmission (f : FormState) (net : HttpOutcome) : SubmitOutcome :=
  let missing := missingFields f
  if missing ≠ [] then
    { displays := ["Please complete the following required fields: " ++
        String.intercalate ", " missing]
      calls := [] }
  else
    match f.uploaded_file with
    | none => { displays := [], calls := [] }
    | some image =>
      let pr := process_image image
      let processed_image := pr.2
      let res := predict_image processed_image net
      { displays := ["Processed Image"] ++ res.2.1 ++ renderPredictions res.2.2
        calls := res.1 }

/-! ## Fixtures used by witnesses -/

/-- A small concrete uploaded image. -/
def sampleUpload : PImage :=
  { width := 2, height := 2, pix := fun _ _ => (10, 20, 30, 255) }

/-- A submission with every field set except the full name. -/
def invalidForm : FormState :=
  { full_name := "", email := "jo@clinic.test", dob := some 7000, age := 44
    gender := "Female", contact := "555-0100", diabetes := some "No"
    diabetes_years := none, high_bp := some "No", medications := ""
    uploaded_file := some sampleUpload }

/-- A fully filled submission (diabetes "Yes" with its years supplied). -/
def validForm : FormState :=
  { full_name := "Jo Doe", email := "jo@clinic.test", dob := some 7000, age := 44
    gender := "Female", contact := "555-0100", diabetes := some "Yes"
    diabetes_years := some 5, high_bp := some "No", medications := ""
    uploaded_file := some sampleUpload }

/-- The parsed response of the spec's rendering example. -/
def gradeObj : JObj :=
  [ ("labels", .arr [.str "Grade 1", .str "Grade 2"])
  , ("probabilities", .arr [.num (mkRat 72345 1000), .num (mkRat 27655 1000)]) ]

/-- The parsed response of the spec's backend-error example. -/
def errObj : JObj := [("error", .str "model unavailable")]

/-- A parsed response whose arrays have unequal lengths (three labels,
one probability). -/
def unevenObj : JObj :=
  [ ("labels", .arr [.str "A", .str "B", .str "C"])
  , ("probabilities", .arr [.num (mkRat 50 1)]) ]

/-- The one POST the prediction client issues for an image. -/
def predictCall (image : Image) : PostCall :=
  { url := predictURL, fileB64 := b64encodeString (pngEncode image) }

/-- A 1×1 processed image used to exercise the client concretely. -/
def tinyImage : Image := { width := 1, height := 1, pix := fun _ _ => (1, 2, 3) }

/-! ## Claim C1 — the validator names exactly the unset fields and blocks -/

/-- Spec-side reading (§4.1 and C1): `name` is the name of a required
field that is unset in `f`, with "Years with Diabetes" required exactly
when the diabetes radio equals `"Yes"`. -/
def specFieldUnset (f : FormState) (name : String) : Prop :=
  (name = "Full Name" ∧ f.full_name = "") ∨
  (name = "Email" ∧ f.email = "") ∨
  (name = "Date of Birth" ∧ f.dob = none) ∨
  (name = "Age" ∧ f.age = 0) ∨
  (name = "Gender" ∧ f.gender = "Select Gender") ∨
  (name = "Contact Number" ∧ f.contact = "") ∨
  (name = "Diabetes Status" ∧ f.diabetes = none) ∨
  (name = "Years with Diabetes" ∧ f.diabetes = some "Yes" ∧ f.diabetes_years = none) ∨
  (name = "Blood Pressure Status" ∧ f.high_bp = none) ∨
  (name = "Image Upload" ∧ f.uploaded_file = none)

theorem mem_if_singleton {c : Prop} [Decidable c] {a x : String} :
    x ∈ (if c then [a] else []) ↔ c ∧ x = a := by
  split <;> simp_all

set_option maxHeartbeats 1000000 in
/-- The validator's list contains a name exactly when the spec counts that
field as unset. -/
theorem missingFields_mem (f : FormState) (name : String) :
    name ∈ missingFields f ↔ specFieldUnset f name := by
  simp only [missingFields, specFieldUnset, List.mem_append, mem_if_singleton,
    Option.isNone_iff_eq_none, and_comm, or_assoc]

/-- C1: for every submission in which at least one required field is
unset, the validator produces a non-empty missing-field list containing
exactly the names of the unset fields ("Years with Diabetes" counted as
required exactly when the diabetes radio equals "Yes"), and no network
call is issued for that submission. -/
theorem validator_blocks_invalid (f : FormState) (net : HttpOutcome)
    (h : ∃ name, specFieldUnset f name) :
    missingFields f ≠ [] ∧
      (∀ name, name ∈ missingFields f ↔ specFieldUnset f name) ∧
      (runSubmission f net).calls = [] := by
  obtain ⟨n, hn⟩ := h
  have hmem : n ∈ missingFields f := (missingFields_mem f n).mpr hn
  have hne : missingFields f ≠ [] := by
    intro he
    rw [he] at hmem
    exact List.not_mem_nil n hmem
  refine ⟨hne, fun name => missingFields_mem f name, ?_⟩
  unfold runSubmission
  simp only [if_pos hne]

theorem validator_blocks_invalid_witness :
    (∃ name, specFieldUnset invalidForm name) ∧
      (missingFields invalidForm ≠ [] ∧
        (∀ name, name ∈ missingFields invalidForm ↔ specFieldUnset invalidForm name) ∧
        (runSubmission invalidForm (.response 200 (some []))).calls = []) :=
  ⟨⟨"Full Name", Or.inl ⟨rfl, rfl⟩⟩,
    validator_blocks_invalid invalidForm (.response 200 (some []))
      ⟨"Full Name", Or.inl ⟨rfl, rfl⟩⟩⟩

/-! ## Renderer lemmas and claims C2, C6, C7, C10 -/

theorem hasKey_of_lookupJ {o : JObj} {k : String} {v : JVal}
    (h : lookupJ o k = some v) : hasKey o k = true := by
  induction o with
  | nil => simp [lookupJ] at h
  | cons p rest ih =>
    by_cases hb : (p.1 == k) = true
    · simp [hasKey, hb]
    · have hb' : (p.1 == k) = false := by simpa using hb
      simp only [lookupJ, List.find?, hb'] at h
      simp only [hasKey, List.any_cons, hb', Bool.false_or]
      exact ih h

theorem lookupJ_ne_nil {o : JObj} {k : String} {v : JVal}
    (h : lookupJ o k = some v) : o ≠ [] := by
  intro he
  subst he
  simp [lookupJ] at h

/-- The labels-and-probabilities branch of the renderer, in closed form. -/
theorem renderPredictions_pairs (o : JObj) (ls ps : List JVal)
    (hl : lookupJ o "labels" = some (.arr ls))
    (hp : lookupJ o "probabilities" = some (.arr ps)) :
    renderPredictions (some o) =
      ["Analysis Complete!", "Results:"] ++
        (ls.zip ps).map (fun lp => renderPairText lp.1 lp.2) := by
  have h1 := hasKey_of_lookupJ hp
  have h2 := hasKey_of_lookupJ hl
  have hne := lookupJ_ne_nil hl
  have hempty : o.isEmpty = false := by
    cases o with
    | nil => exact absurd rfl hne
    | cons p rest => rfl
  rw [renderPredictions, hempty, h1, h2, hl, hp]
  rfl

/-- C2 (the code, evaluated at the claim's failing input): on the parsed
response `{}` the renderer displays nothing at all — the empty dict is
falsy, so the `if predictions:` guard skips the whole rendering block and
the generic unexpected-response message is never shown. -/
theorem renderer_empty_object_renders_nothing :
    renderPredictions (some []) = [] := rfl

/-- C6 (amended): for every parsed response carrying `labels` and
`probabilities` arrays, the renderer displays one line per `zip`-pair in
array order, formatted as `label: p%` where `p` is the probability's
binary64 value correctly rounded to two decimals. -/
theorem renderer_formats_pairs (o : JObj) (ls ps : List JVal)
    (hl : lookupJ o "labels" = some (.arr ls))
    (hp : lookupJ o "probabilities" = some (.arr ps)) :
    renderPredictions (some o) =
      ["Analysis Complete!", "Results:"] ++
        (ls.zip ps).map (fun lp =>
          jvalText lp.1 ++ ": " ++ pyFmtFloat2 lp.2 ++ "%") :=
  renderPredictions_pairs o ls ps hl hp

set_option maxRecDepth 100000 in
/-- C6 (counterexample to the claim as stated): on labels
`["Grade 1", "Grade 2"]` and probabilities `[72.345, 27.655]` the program
displays `Grade 1: 72.34%` — not `72.35%` as claimed: the binary64 double
nearest `72.345` is `72.34499999999999886…`, which rounds down. -/
theorem renderer_example_displays_7234 :
    renderPredictions (some gradeObj) =
      ["Analysis Complete!", "Results:", "Grade 1: 72.34%", "Grade 2: 27.66%"] ∧
    "Grade 1: 72.35%" ∉ renderPredictions (some gradeObj) := by
  constructor
  · decide
  · decide

theorem renderer_formats_pairs_witness :
    lookupJ gradeObj "labels" = some (.arr [.str "Grade 1", .str "Grade 2"]) ∧
    renderPredictions (some gradeObj) =
      ["Analysis Complete!", "Results:"] ++
        (([JVal.str "Grade 1", JVal.str "Grade 2"].zip
            [JVal.num (mkRat 72345 1000), JVal.num (mkRat 27655 1000)]).map
          (fun lp => jvalText lp.1 ++ ": " ++ pyFmtFloat2 lp.2 ++ "%")) :=
  ⟨rfl, renderer_formats_pairs gradeObj _ _ rfl rfl⟩

/-- C7: a parsed response with an `error` string and without the
`labels`/`probabilities` pair renders exactly the backend-error message
carrying the error text verbatim; and the pair case has priority — when
both keys are present the renderer enters the results branch instead,
never the backend-error message (the three branches are mutually
exclusive by construction of the `if`/`elif`/`else`). -/
theorem renderer_error_branch (o : JObj) (e : String)
    (hne : o ≠ [])
    (herr : lookupJ o "error" = some (.str e)) :
    (¬(hasKey o "probabilities" = true ∧ hasKey o "labels" = true) →
      renderPredictions (some o) = ["Backend Error: " ++ e]) ∧
    ((hasKey o "probabilities" = true ∧ hasKey o "labels" = true) →
      ∃ rest, renderPredictions (some o) = "Analysis Complete!" :: "Results:" :: rest) := by
  have hke := hasKey_of_lookupJ herr
  have hempty : o.isEmpty = false := by
    cases o with
    | nil => exact absurd rfl hne
    | cons p rest => rfl
  constructor
  · intro hnb
    have hff : (hasKey o "probabilities" && hasKey o "labels") = false := by
      cases hp : hasKey o "probabilities" <;> cases hq : hasKey o "labels" <;> simp_all
    rw [renderPredictions, hempty, hff, hke, herr]
    rfl
  · rintro ⟨h1, h2⟩
    rw [renderPredictions, hempty, h1, h2]
    exact ⟨_, rfl⟩

theorem renderer_error_branch_witness :
    errObj ≠ [] ∧ lookupJ errObj "error" = some (.str "model unavailable") ∧
    renderPredictions (some errObj) = ["Backend Error: model unavailable"] :=
  ⟨List.cons_ne_nil _ _, rfl,
    (renderer_error_branch errObj "model unavailable" (List.cons_ne_nil _ _) rfl).1
      (by decide)⟩

/-- C10: when both arrays are present but of unequal length the renderer
still succeeds, displaying exactly `min |labels| |probabilities|` pair
lines (Python's `zip` truncates to the shorter array) and silently
ignoring the surplus entries. -/
theorem renderer_zip_truncates (o : JObj) (ls ps : List JVal)
    (hl : lookupJ o "labels" = some (.arr ls))
    (hp : lookupJ o "probabilities" = some (.arr ps)) :
    renderPredictions (some o) =
      ["Analysis Complete!", "Results:"] ++
        (ls.zip ps).map (fun lp => renderPairText lp.1 lp.2) ∧
    ((ls.zip ps).map (fun lp => renderPairText lp.1 lp.2)).length =
      min ls.length ps.length := by
  refine ⟨renderPredictions_pairs o ls ps hl hp, ?_⟩
  simp [List.length_zip]

theorem renderer_zip_truncates_witness :
    lookupJ unevenObj "labels" = some (.arr [.str "A", .str "B", .str "C"]) ∧
    (renderPredictions (some unevenObj) =
      ["Analysis Complete!", "Results:"] ++
        (([JVal.str "A", JVal.str "B", JVal.str "C"].zip
            [JVal.num (mkRat 50 1)]).map (fun lp => renderPairText lp.1 lp.2)) ∧
      (([JVal.str "A", JVal.str "B", JVal.str "C"].zip
          [JVal.num (mkRat 50 1)]).map (fun lp => renderPairText lp.1 lp.2)).length =
        min 3 1) :=
  ⟨rfl, renderer_zip_truncates unevenObj _ _ rfl rfl⟩

/-! ## Claim C3 — the preprocessing pipeline, step by step -/

/-- C3: for every decodable input image, `process_image` resizes the
RGB-converted input to exactly 224×224, converts RGB→BGR, splits into the
three planes, equalizes each plane independently with CLAHE at clip limit
2.0 and tile grid 8×8, merges the planes back in BGR order and converts
BGR→RGB; it returns the resized-but-unequalized RGB image first and the
equalized image second, and both are exactly 224×224. -/
theorem process_image_pipeline (image : PImage) :
    (process_image image).1 = resize 224 224 (convertRGB image) ∧
    (process_image image).2 =
      cvtColorBGR2RGB
        (merge3
          (claheApply (createCLAHE 2 (8, 8))
            (split3 (cvtColorRGB2BGR (resize 224 224 (convertRGB image)))).1)
          (claheApply (createCLAHE 2 (8, 8))
            (split3 (cvtColorRGB2BGR (resize 224 224 (convertRGB image)))).2.1)
          (claheApply (createCLAHE 2 (8, 8))
            (split3 (cvtColorRGB2BGR (resize 224 224 (convertRGB image)))).2.2)) ∧
    (process_image image).2.width = 224 ∧ (process_image image).2.height = 224 ∧
    (process_image image).1.width = 224 ∧ (process_image image).1.height = 224 :=
  ⟨rfl, rfl, rfl, rfl, rfl, rfl⟩

/-! ## Claim C8 — determinism of the pipeline -/

/-- C8: the image pipeline is deterministic — two invocations of
`process_image` on the same input produce byte-identical 224×224 RGB
output (compared on the raw pixel byte serialization). -/
theorem process_image_deterministic (i1 i2 : PImage) (h : i1 = i2) :
    pixelBytes (process_image i1).2 = pixelBytes (process_image i2).2 := by
  rw [h]

theorem process_image_deterministic_witness :
    sampleUpload = sampleUpload ∧
      pixelBytes (process_image sampleUpload).2 =
        pixelBytes (process_image sampleUpload).2 :=
  ⟨rfl, process_image_deterministic sampleUpload sampleUpload rfl⟩

/-! ## Claim C5 — error handling of the prediction client -/

/-- The prediction client issues exactly its one POST, whatever the
network does. -/
theorem predict_image_calls (image : Image) (net : HttpOutcome) :
    (predict_image image net).1 = [predictCall image] := by
  cases net with
  | transportError msg => rfl
  | response s body =>
    by_cases hs : raiseForStatusRaises s = true
    · simp [predict_image, predictCall, hs]
    · cases body <;> simp [predict_image, predictCall, hs]

/-- C5 (amended): the prediction client always issues exactly its one
POST; on a transport failure, on a 4xx or 5xx status (the statuses
`raise_for_status` raises on), or on an unparseable body, it shows an
error message naming the exception text and returns `None` with no
further processing; when nothing raises, the parsed JSON body is returned
as-is, with no structural validation and nothing displayed. -/
theorem predict_image_error_handling (image : Image) (net : HttpOutcome) :
    (predict_image image net).1 = [predictCall image] ∧
    (∀ msg, net = .transportError msg →
      (predict_image image net).2 = (["Prediction API Error: " ++ msg], none)) ∧
    (∀ s body, net = .response s body → raiseForStatusRaises s = true →
      (predict_image image net).2 =
        (["Prediction API Error: " ++ httpErrorText s], none)) ∧
    (∀ s, net = .response s none → raiseForStatusRaises s = false →
      (predict_image image net).2 = (["Prediction API Error: " ++ jsonErrorText], none)) ∧
    (∀ s o, net = .response s (some o) → raiseForStatusRaises s = false →
      (predict_image image net).2 = ([], some o)) := by
  refine ⟨predict_image_calls image net, ?_, ?_, ?_, ?_⟩
  · rintro msg rfl
    rfl
  · rintro s body rfl hs
    simp [predict_image, hs]
  · rintro s rfl hs
    simp [predict_image, hs]
  · rintro s o rfl hs
    simp [predict_image, hs]

theorem predict_image_error_handling_witness :
    (HttpOutcome.response 500 (some errObj) = HttpOutcome.response 500 (some errObj)) ∧
      raiseForStatusRaises 500 = true ∧
      (predict_image tinyImage (.response 500 (some errObj))).2 =
        (["Prediction API Error: " ++ httpErrorText 500], none) :=
  ⟨rfl, by decide,
    (predict_image_error_handling tinyImage (.response 500 (some errObj))).2.2.1
      500 (some errObj) rfl (by decide)⟩

/-- C5 (counterexample to the claim as stated): status 304 is not 2xx,
yet `raise_for_status` does not raise on it (it raises only for 400–599),
so the client shows no error and returns the parsed body rather than
`None`. -/
theorem predict_image_non2xx_counterexample :
    ¬(200 ≤ 304 ∧ 304 ≤ 299) ∧
    raiseForStatusRaises 304 = false ∧
    (predict_image tinyImage (.response 304 (some errObj))).2.1 = [] ∧
    (predict_image tinyImage (.response 304 (some errObj))).2.2 = some errObj :=
  ⟨by omega, rfl, rfl, rfl⟩

/-! ## Base64 round-trip (for claim C4) -/

theorem charSextet_sextetChar : ∀ n, n < 64 → charSextet (sextetChar n) = some n := by
  decide

theorem sextetChar_ne_pad : ∀ n, n < 64 → ¬(sextetChar n = '=') := by
  decide

/-- Decoding one full three-byte group prepends its bytes. -/
theorem b64decode_chunk (a b c : Nat) (ha : a < 256) (hb : b < 256) (hc : c < 256)
    (tail : List Char) (l : List Nat) (htail : b64decodeChars tail = some l) :
    b64decodeChars (b64chunk a b c ++ tail) = some (a :: b :: c :: l) := by
  have h1 : a / 4 < 64 := by omega
  have h2 : a % 4 * 16 + b / 16 < 64 := by omega
  have h3 : b % 16 * 4 + c / 64 < 64 := by omega
  have h4 : c % 64 < 64 := by omega
  have g1 : a / 4 * 4 + (a % 4 * 16 + b / 16) / 16 = a := by omega
  have g2 : (a % 4 * 16 + b / 16) % 16 * 16 + (b % 16 * 4 + c / 64) / 4 = b := by omega
  have g3 : (b % 16 * 4 + c / 64) % 4 * 64 + c % 64 = c := by omega
  show b64decodeChars (sextetChar (a / 4) :: sextetChar (a % 4 * 16 + b / 16) ::
      sextetChar (b % 16 * 4 + c / 64) :: sextetChar (c % 64) :: tail) =
    some (a :: b :: c :: l)
  simp only [b64decodeChars, if_neg (sextetChar_ne_pad _ h3),
    if_neg (sextetChar_ne_pad _ h4), charSextet_sextetChar _ h1,
    charSextet_sextetChar _ h2, charSextet_sextetChar _ h3,
    charSextet_sextetChar _ h4, htail]
  rw [g1, g2, g3]
  rfl

/-- Base64 decoding inverts base64 encoding on byte lists. -/
theorem b64_roundtrip (l : List Nat) :
    (∀ b ∈ l, b < 256) → b64decodeChars (b64encodeBytes l) = some l := by
  induction l using b64encodeBytes.induct with
  | case1 =>
    intro _
    rfl
  | case2 a =>
    intro h
    have ha : a < 256 := h a (by simp)
    have h1 : a / 4 < 64 := by omega
    have h2 : a % 4 * 16 < 64 := by omega
    have g1 : a / 4 * 4 + (a % 4 * 16) / 16 = a := by omega
    simp only [b64encodeBytes, b64decodeChars, if_pos rfl,
      charSextet_sextetChar _ h1, charSextet_sextetChar _ h2]
    simp only [if_true]
    simp only [Option.some.injEq, List.cons.injEq, and_true]
    omega
  | case3 a b =>
    intro h
    have ha : a < 256 := h a (by simp)
    have hb : b < 256 := h b (by simp)
    have h1 : a / 4 < 64 := by omega
    have h2 : a % 4 * 16 + b / 16 < 64 := by omega
    have h3 : b % 16 * 4 < 64 := by omega
    have g1 : a / 4 * 4 + (a % 4 * 16 + b / 16) / 16 = a := by omega
    have g2 : (a % 4 * 16 + b / 16) % 16 * 16 + (b % 16 * 4) / 4 = b := by omega
    simp only [b64encodeBytes, b64decodeChars, if_neg (sextetChar_ne_pad _ h3),
      if_pos rfl, charSextet_sextetChar _ h1, charSextet_sextetChar _ h2,
      charSextet_sextetChar _ h3]
    simp only [if_true]
    simp only [Option.some.injEq, List.cons.injEq, and_true]
    omega
  | case4 a b c rest ih =>
    intro h
    have htail : b64decodeChars (b64encodeBytes rest) = some rest :=
      ih (fun x hx => h x (by simp [hx]))
    have := b64decode_chunk a b c (h a (by simp)) (h b (by simp)) (h c (by simp))
      (b64encodeBytes rest) rest htail
    simpa [b64encodeBytes] using this

/-- Base64 string decoding inverts string encoding on byte lists. -/
theorem b64decodeString_encodeString (l : List Nat) (h : ∀ b ∈ l, b < 256) :
    b64decodeString (b64encodeString l) = some l :=
  b64_roundtrip l h

/-! ## PNG lemmas and claims C4, C9 -/

/-- Every byte the PNG encoder emits is an actual byte. -/
theorem pngEncode_bytes_lt (img : Image) : ∀ b ∈ pngEncode img, b < 256 := by
  intro b hb
  simp only [pngEncode, pngSignature, be32, pixelBytes, List.mem_append,
    List.mem_flatMap, List.mem_range, List.mem_cons, List.not_mem_nil, or_false] at hb
  rcases hb with (h | h | h | h | h | h | h | h) |
      (h | h | h | h) | (h | h | h | h) | (h | h) |
      ⟨y, hy, x, hx, h | h | h⟩ <;> omega

theorem take8_append (l1 l2 : List Nat) (h : l1.length = 8) :
    (l1 ++ l2).take 8 = l1 := by
  rw [← h, List.take_left]

theorem drop8_append (l1 l2 : List Nat) (h : l1.length = 8) :
    (l1 ++ l2).drop 8 = l2 := by
  rw [← h, List.drop_left]

theorem take4_append (l1 l2 : List Nat) (h : l1.length = 4) :
    (l1 ++ l2).take 4 = l1 := by
  rw [← h, List.take_left]

theorem drop4_append (l1 l2 : List Nat) (h : l1.length = 4) :
    (l1 ++ l2).drop 4 = l2 := by
  rw [← h, List.drop_left]

/-- The PNG encoder's output starts with the PNG signature. -/
theorem pngEncode_take8 (img : Image) : (pngEncode img).take 8 = pngSignature := by
  rw [pngEncode, List.append_assoc, List.append_assoc, List.append_assoc]
  exact take8_append _ _ rfl

theorem length_flatMap_const {α β : Type} (l : List α) (f : α → List β) (n : Nat)
    (hf : ∀ a ∈ l, (f a).length = n) : (l.flatMap f).length = l.length * n := by
  induction l with
  | nil => simp
  | cons a t ih =>
    simp only [List.flatMap_cons, List.length_append, List.length_cons]
    rw [hf a (List.mem_cons_self a t), ih (fun x hx => hf x (List.mem_cons_of_mem a hx))]
    ring

/-- The pixel payload has three bytes per pixel. -/
theorem pixelBytes_length (img : Image) :
    (pixelBytes img).length = img.height * (img.width * 3) := by
  rw [pixelBytes, length_flatMap_const _ _ (img.width * 3) ?_, List.length_range]
  intro y _
  rw [length_flatMap_const _ _ 3 ?_, List.length_range]
  intro x _
  rfl

/-- Reading back a big-endian 32-bit value. -/
theorem be32parse_be32 (n : Nat) (h : n < 2 ^ 32) : be32parse (be32 n) = n := by
  simp only [be32, be32parse]
  omega

/-- The PNG decoder inverts the PNG encoder: signature, dimensions,
truecolour channel count and payload are all recovered. -/
theorem pngDecode_pngEncode (img : Image)
    (hw : img.width < 2 ^ 32) (hh : img.height < 2 ^ 32) :
    pngDecode (pngEncode img) =
      some { width := img.width, height := img.height, channels := 3,
             data := pixelBytes img } := by
  have h8 : (pngEncode img).take 8 = pngSignature := pngEncode_take8 img
  have hdrop : (pngEncode img).drop 8 =
      be32 img.width ++ (be32 img.height ++ ([8, 2] ++ pixelBytes img)) := by
    rw [pngEncode, List.append_assoc, List.append_assoc, List.append_assoc]
    exact drop8_append _ _ rfl
  have hw4 : (be32 img.width).length = 4 := rfl
  have hh4 : (be32 img.height).length = 4 := rfl
  have hlen : (pixelBytes img).length = img.width * img.height * pngColorChannels 2 := by
    rw [pixelBytes_length]
    show _ = img.width * img.height * 3
    ring
  rw [pngDecode, if_pos h8, hdrop]
  simp only [take4_append (be32 img.width) _ hw4, drop4_append (be32 img.width) _ hw4,
    take4_append (be32 img.height) _ hh4, drop4_append (be32 img.height) _ hh4,
    be32parse_be32 _ hw, be32parse_be32 _ hh, List.cons_append, List.nil_append,
    pngColorChannels, hlen]
  simp

/-! ## Claim C4 — valid submissions POST exactly one base64 PNG -/

/-- C4: for every valid submission (empty missing-field list), the handler
issues exactly one HTTP POST, to the fixed endpoint, whose JSON body is
`{"file": <base64>}` where the base64 value decodes back to precisely the
PNG encoding of the processed 224×224 RGB image, and that encoding starts
with the PNG signature. -/
theorem valid_submission_posts_png (f : FormState) (net : HttpOutcome) (img : PImage)
    (hvalid : missingFields f = []) (hup : f.uploaded_file = some img) :
    (runSubmission f net).calls = [predictCall (process_image img).2] ∧
    b64decodeString (predictCall (process_image img).2).fileB64 =
      some (pngEncode (process_image img).2) ∧
    (pngEncode (process_image img).2).take 8 = pngSignature := by
  refine ⟨?_, b64decodeString_encodeString _ (pngEncode_bytes_lt _), pngEncode_take8 _⟩
  have hnn : ¬(missingFields f ≠ []) := fun hc => hc hvalid
  rw [runSubmission]
  rw [if_neg hnn, hup]
  exact predict_image_calls (process_image img).2 net

theorem valid_submission_posts_png_witness :
    missingFields validForm = [] ∧ validForm.uploaded_file = some sampleUpload ∧
    ((runSubmission validForm (.response 200 (some errObj))).calls =
        [predictCall (process_image sampleUpload).2] ∧
      b64decodeString (predictCall (process_image sampleUpload).2).fileB64 =
        some (pngEncode (process_image sampleUpload).2) ∧
      (pngEncode (process_image sampleUpload).2).take 8 = pngSignature) :=
  ⟨by decide, rfl,
    valid_submission_posts_png validForm (.response 200 (some errObj)) sampleUpload
      (by decide) rfl⟩

/-! ## Claim C9 — PNG round-trip preserves dimensions and channels -/

/-- C9: encoding a processed 224×224 RGB image to PNG in memory and
decoding the resulting bytes succeeds and yields the same pixel
dimensions, 224×224, and the same channel count, 3. -/
theorem png_roundtrip_dims (img : Image) (hw : img.width = 224) (hh : img.height = 224) :
    ∃ d, pngDecode (pngEncode img) = some d ∧
      d.width = 224 ∧ d.height = 224 ∧ d.channels = 3 := by
  refine ⟨_, pngDecode_pngEncode img (by rw [hw]; norm_num) (by rw [hh]; norm_num),
    hw, hh, rfl⟩

theorem png_roundtrip_dims_witness :
    (process_image sampleUpload).2.width = 224 ∧
    (process_image sampleUpload).2.height = 224 ∧
    ∃ d, pngDecode (pngEncode (process_image sampleUpload).2) = some d ∧
      d.width = 224 ∧ d.height = 224 ∧ d.channels = 3 :=
  ⟨rfl, rfl, png_roundtrip_dims (process_image sampleUpload).2 rfl rfl⟩

end PADMA
